import Mathlib

/-!
Verification development for the crop-advisory rule-evaluation engine.

The engine is embedded shallowly from the two source variants that the
claims cite: `App_2.py` (condition evaluator, growth advisory matcher,
sowing advisory matcher, weather metrics with 8/31-day windows) and
`App_8.py` (sowing comments, weather metrics with 7/30-day windows,
zero-excluding averages, DAS matcher).

Python strings are modelled as `List Char`; Python `float` values as `ℚ`
(numerals restricted to optional sign, digits and one decimal point; the
claims never hinge on exotic float syntax or rounding); calendar dates as
integer day indexes (the sources only ever compare dates and subtract
whole-day `timedelta`s, so the order embedding is exact); a raised Python
exception as `Except.error ()`; Python `None` as `none`.
-/

/-! ## Python string primitives -/

abbrev PyStr := List Char

def pyS (s : String) : PyStr := s.data

/-- Whitespace characters recognised by the model of `str.strip()`
(space, tab, newline, carriage return). -/
def pyIsSpace (c : Char) : Bool :=
  c == ' ' || c == Char.ofNat 9 || c == Char.ofNat 10 || c == Char.ofNat 13

/-- Model of Python `s.strip()`. -/
def pyTrim (s : PyStr) : PyStr :=
  ((s.dropWhile pyIsSpace).reverse.dropWhile pyIsSpace).reverse

/-- Model of Python `s.startswith(pre)`. -/
def pyStartsWith (pre s : PyStr) : Bool := List.isPrefixOf pre s

/-- Model of Python `s.endswith(suf)`. -/
def pyEndsWith (suf s : PyStr) : Bool := List.isSuffixOf suf s

/-- Model of Python `needle in hay` (substring containment). -/
def pyContainsSub (needle : PyStr) : PyStr → Bool
  | [] => needle.isEmpty
  | c :: rest => List.isPrefixOf needle (c :: rest) || pyContainsSub needle rest

def pyLower (s : PyStr) : PyStr := s.map Char.toLower

def pyUpper (s : PyStr) : PyStr := s.map Char.toUpper

/-- Model of Python `s.replace(old, new)` (all non-overlapping occurrences,
left to right).  Fuel-based so that the kernel can evaluate it; the fuel
`s.length + 1` always suffices because every step consumes at least one
character of `s`. -/
def pyReplaceAux (old new : PyStr) : ℕ → PyStr → PyStr
  | 0, s => s
  | _ + 1, [] => []
  | f + 1, c :: rest =>
    if List.isPrefixOf old (c :: rest) then new ++ pyReplaceAux old new f ((c :: rest).drop old.length)
    else c :: pyReplaceAux old new f rest

def pyReplace (old new s : PyStr) : PyStr :=
  if old = [] then s else pyReplaceAux old new (s.length + 1) s

/-- Model of Python `s.split(sep)` for a non-empty separator. -/
def pySplitAux (sep : PyStr) : ℕ → PyStr → PyStr → List PyStr
  | 0, rest, acc => [acc.reverse ++ rest]
  | f + 1, s, acc =>
    match s with
    | [] => [acc.reverse]
    | c :: rest =>
      if List.isPrefixOf sep (c :: rest) then acc.reverse :: pySplitAux sep f ((c :: rest).drop sep.length) []
      else pySplitAux sep f rest (c :: acc)

def pySplit (sep s : PyStr) : List PyStr :=
  if sep = [] then [s] else pySplitAux sep (s.length + 1) s []

/-- Model of Python `s.split(sep)` for a single-character separator. -/
def pySplitCharAux (sep : Char) : PyStr → PyStr → List PyStr
  | [], acc => [acc.reverse]
  | c :: rest, acc =>
    if c == sep then acc.reverse :: pySplitCharAux sep rest []
    else pySplitCharAux sep rest (c :: acc)

def pySplitChar (sep : Char) (s : PyStr) : List PyStr := pySplitCharAux sep s []

/-- Model of Python `s.split()` (split on whitespace runs, no empty parts). -/
def pySplitWsAux : PyStr → PyStr → List PyStr
  | [], acc => if acc.isEmpty then [] else [acc.reverse]
  | c :: rest, acc =>
    if pyIsSpace c then
      (if acc.isEmpty then pySplitWsAux rest [] else acc.reverse :: pySplitWsAux rest [])
    else pySplitWsAux rest (c :: acc)

def pySplitWs (s : PyStr) : List PyStr := pySplitWsAux s []

/-- Model of Python `" ".join(parts)`. -/
def joinSpace (ls : List PyStr) : PyStr := List.intercalate [' '] ls

/-! ## Numeric literal parsing

`intParse` models Python `int(s)` and `floatParse` models Python
`float(s)`, restricted to optional-sign decimal numerals (no exponents,
`inf`/`nan` or underscores — none of the rule grammars use them).
Both strip surrounding whitespace, as the Python functions do. -/

def digitsToNat (ds : PyStr) : ℕ := ds.foldl (fun n c => 10 * n + (c.toNat - 48)) 0

def intParseCore (sign : ℤ) (ds : PyStr) : Option ℤ :=
  if ds ≠ [] ∧ ds.all Char.isDigit then some (sign * (digitsToNat ds : ℤ)) else none

def intParse (s : PyStr) : Option ℤ :=
  match pyTrim s with
  | '+' :: r => intParseCore 1 r
  | '-' :: r => intParseCore (-1) r
  | r => intParseCore 1 r

def floatParseCore (sign : ℤ) (ds : PyStr) : Option ℚ :=
  match pySplitChar '.' ds with
  | [ip] => if ip ≠ [] ∧ ip.all Char.isDigit then some (mkRat (sign * (digitsToNat ip : ℤ)) 1) else none
  | [ip, fp] =>
    if (ip ≠ [] ∨ fp ≠ []) ∧ ip.all Char.isDigit ∧ fp.all Char.isDigit then
      some (mkRat (sign * ((digitsToNat ip * 10 ^ fp.length + digitsToNat fp : ℕ) : ℤ)) (10 ^ fp.length))
    else none
  | _ => none

def floatParse (s : PyStr) : Option ℚ :=
  match pyTrim s with
  | '+' :: r => floatParseCore 1 r
  | '-' :: r => floatParseCore (-1) r
  | r => floatParseCore 1 r

/-- Nat to decimal digits, fuel-based. -/
def natDigitsAux : ℕ → ℕ → PyStr
  | 0, _ => []
  | f + 1, n => if n < 10 then [Char.ofNat (48 + n)] else natDigitsAux f (n / 10) ++ [Char.ofNat (48 + n % 10)]

def natToStr (n : ℕ) : PyStr := natDigitsAux (n + 1) n

/-- Model of Python `str(i)` for an int (as used by f-strings). -/
def intToStr : ℤ → PyStr
  | .ofNat n => natToStr n
  | .negSucc n => '-' :: natToStr (n + 1)

/-! ## Condition Evaluator (`App_2.py` lines 52-89, `parse_if_condition`)

A parsed comparison; `eq` is the implicit-equality fallback branch. -/

inductive CondCheck where
  | ge (v : ℚ)
  | le (v : ℚ)
  | gt (v : ℚ)
  | lt (v : ℚ)
  | eq (v : ℚ)
deriving DecidableEq

def checkHolds : CondCheck → ℚ → Bool
  | .ge v, x => decide (x ≥ v)
  | .le v, x => decide (x ≤ v)
  | .gt v, x => decide (x > v)
  | .lt v, x => decide (x < v)
  | .eq v, x => decide (x = v)

/-- A Python value supplied to the evaluator: either numeric or not.
For a non-numeric value an ordering comparison raises `TypeError`
(modelled as `Except.error ()`), while `==` just returns `False`. -/
inductive PyVal where
  | num (q : ℚ)
  | nonNum
deriving DecidableEq

def evalCheckE : CondCheck → PyVal → Except Unit Bool
  | c, .num q => .ok (checkHolds c q)
  | .eq _, .nonNum => .ok false
  | _, .nonNum => .error ()

/-- The loop body of `evaluator` (`App_2.py` lines 80-87): run the checks
in order; a failing check short-circuits to `False`; an exception
propagates to the surrounding `try`. -/
def runChecks : List CondCheck → PyVal → Except Unit Bool
  | [], _ => .ok true
  | c :: cs, v =>
    match evalCheckE c v with
    | .error e => .error e
    | .ok b => if b then runChecks cs v else .ok false

/-- `evaluator` (`App_2.py` lines 80-87): the `try`/`except` makes any
exception during evaluation yield `False`. -/
def evaluatorRun (cs : List CondCheck) (v : PyVal) : Bool :=
  match runChecks cs v with
  | .ok b => b
  | .error _ => false

/-- The first comparison-operator token that `p` starts with, in the
order the source tests them (`>=`, `<=`, `>`, `<`). -/
def opHeadTok (p : PyStr) : Option PyStr :=
  if pyStartsWith (pyS (">=")) p then some (pyS (">="))
  else if pyStartsWith (pyS ("<=")) p then some (pyS ("<="))
  else if pyStartsWith (pyS (">")) p then some (pyS (">"))
  else if pyStartsWith (pyS ("<")) p then some (pyS ("<"))
  else none

/-- One fragment of the condition string (`App_2.py` lines 59-78).
A fragment starting with a comparison operator calls `float(...)` with no
surrounding `try`, so an unparseable remainder raises (`Except.error`);
only the implicit-equality branch wraps its `float` call in `try`/`except
pass`, silently skipping the fragment (`Except.ok none`). -/
def parseFragment (p : PyStr) : Except Unit (Option CondCheck) :=
  if pyStartsWith (pyS (">=")) p then
    match floatParse (pyTrim (pyReplace (pyS (">=")) [] p)) with
    | some v => .ok (some (.ge v))
    | none => .error ()
  else if pyStartsWith (pyS ("<=")) p then
    match floatParse (pyTrim (pyReplace (pyS ("<=")) [] p)) with
    | some v => .ok (some (.le v))
    | none => .error ()
  else if pyStartsWith (pyS (">")) p then
    match floatParse (pyTrim (pyReplace (pyS (">")) [] p)) with
    | some v => .ok (some (.gt v))
    | none => .error ()
  else if pyStartsWith (pyS ("<")) p then
    match floatParse (pyTrim (pyReplace (pyS ("<")) [] p)) with
    | some v => .ok (some (.lt v))
    | none => .error ()
  else
    match floatParse p with
    | some v => .ok (some (.eq v))
    | none => .ok none

def collectChecks : List PyStr → Except Unit (List CondCheck)
  | [] => .ok []
  | p :: ps =>
    match parseFragment p with
    | .error e => .error e
    | .ok none => collectChecks ps
    | .ok (some c) =>
      match collectChecks ps with
      | .error e => .error e
      | .ok rest => .ok (c :: rest)

/-- `App_2.py` lines 54-56: strip, substitute `&` for `"and"` and `"AND"`
(plain, case-sensitive `str.replace` calls). -/
def normalizeCondStr (s : PyStr) : PyStr :=
  pyReplace (pyS ("AND")) (pyS ("&")) (pyReplace (pyS ("and")) (pyS ("&")) (pyTrim s))

/-- `parse_if_condition` (`App_2.py` lines 52-78): split on `&`, strip each
part, build the check list.  An exception escaping the operator branches
aborts the whole parse. -/
def parseIfCondition (s : PyStr) : Except Unit (List CondCheck) :=
  collectChecks ((pySplitChar '&' (normalizeCondStr s)).map pyTrim)

/-- Total variant used by the specification-level description: a parse
that raised contributes no checks. -/
def checksD (s : PyStr) : List CondCheck :=
  match parseIfCondition s with
  | .ok cs => cs
  | .error _ => []

/-! ## Range matchers -/

def intParseAll : List PyStr → Option (List ℤ)
  | [] => some []
  | p :: ps =>
    match intParse p, intParseAll ps with
    | some a, some rest => some (a :: rest)
    | _, _ => none

def floatParseAll : List PyStr → Option (List ℚ)
  | [] => some []
  | p :: ps =>
    match floatParse p, floatParseAll ps with
    | some a, some rest => some (a :: rest)
    | _, _ => none

/-- `das_in_range_string` (`App_8.py` lines 20-32).  The whole body sits in
one `try`: the `"to"` branch parses every fragment, then unpacks exactly
two; the `"+"` branch deletes every `+` and strips; any failure returns
`False`. -/
def dasInRangeString8 (das : ℤ) (dasStr : PyStr) : Bool :=
  if pyContainsSub (pyS ("to")) (pyTrim dasStr) then
    match intParseAll (pySplit (pyS ("to")) (pyTrim dasStr)) with
    | some [a, b] => decide (a ≤ das ∧ das ≤ b)
    | _ => false
  else if pyEndsWith (pyS ("+")) (pyTrim dasStr) then
    match intParse (pyReplace (pyS ("+")) [] (pyTrim dasStr)) with
    | some a => decide (a ≤ das)
    | none => false
  else
    match intParse (pyTrim dasStr) with
    | some a => a == das
    | none => false

/-- `das_in_range_string` (`App_2.py` lines 232-254).  Separate `try`
blocks per branch; the `"to"` branch uses `parts[0]` and `parts[1]` and
ignores any further fragments. -/
def dasInRangeString2 (das : ℤ) (dasStr : PyStr) : Bool :=
  if pyContainsSub (pyS ("to")) (pyTrim dasStr) then
    match pySplit (pyS ("to")) (pyTrim dasStr) with
    | p0 :: p1 :: _ =>
      match intParse p0, intParse p1 with
      | some a, some b => decide (a ≤ das ∧ das ≤ b)
      | _, _ => false
    | _ => false
  else if pyEndsWith (pyS ("+")) (pyTrim dasStr) then
    match intParse (pyReplace (pyS ("+")) [] (pyTrim dasStr)) with
    | some a => decide (a ≤ das)
    | none => false
  else
    match intParse (pyTrim dasStr) with
    | some a => a == das
    | none => false

/-- `parse_water_range` (`App_2.py` lines 257-267): `"a to b"` to a pair,
a single numeral to `(v, v)`, anything else (including a fragment count
other than two) to `None` — modelled as `none`. -/
def parseWaterRange (s : PyStr) : Option (ℚ × ℚ) :=
  if pyContainsSub (pyS ("to")) s then
    match floatParseAll ((pySplit (pyS ("to")) s).map pyTrim) with
    | some [a, b] => some (a, b)
    | _ => none
  else
    match floatParse (pyTrim s) with
    | some v => some (v, v)
    | none => none

/-! ## Fortnight calendar (`App_2.py` lines 331-338 and 412-424) -/

def monthNames : List (ℕ × PyStr) :=
  [(1, pyS ("January")), (2, pyS ("February")), (3, pyS ("March")), (4, pyS ("April")),
   (5, pyS ("May")), (6, pyS ("June")), (7, pyS ("July")), (8, pyS ("August")),
   (9, pyS ("September")), (10, pyS ("October")), (11, pyS ("November")), (12, pyS ("December"))]

def monthName (m : ℕ) : PyStr :=
  match (monthNames.find? (fun p => p.1 == m)) with
  | some p => p.2
  | none => []

/-- Model of `datetime.strptime(s, "%B").month`: the string must equal a
full month name, case-insensitively; otherwise the call raises (`none`). -/
def monthNum (s : PyStr) : Option ℕ :=
  (monthNames.find? (fun p => pyLower p.2 == pyLower s)).map (fun p => p.1)

/-- `fn_from_date` (`App_2.py` lines 331-338, identical in `App_8.py`):
`"1FN <Month>"` when the day of month is at most 15, else `"2FN <Month>"`. -/
def fnFromDate (day month : ℕ) : PyStr :=
  (if day ≤ 15 then pyS ("1FN ") else pyS ("2FN ")) ++ monthName month

/-- The nested `fn_index` (`App_2.py` lines 412-420): split the token on
whitespace, the first part is the fortnight tag, the rest the month name;
index = `(monthNumber - 1) * 2`, plus one when the tag starts with `"2"`.
A token whose month fails to parse raises — modelled as `none`. -/
def fnIndexTok (token : PyStr) : Option ℕ :=
  match pySplitWs token with
  | [] => none
  | fnp :: rest =>
    (monthNum (joinSpace rest)).map (fun m => (m - 1) * 2 + (if pyStartsWith (pyS ("2")) fnp then 1 else 0))

/-- Specification-level fortnight half: 1 for days 1-15, else 2. -/
def fortHalf (day : ℕ) : ℕ := if day ≤ 15 then 1 else 2

/-! ## Weather data model and aggregation -/

structure WeatherRecord where
  district : PyStr
  taluka : PyStr
  circle : PyStr
  dateIdx : ℤ
  rainfall : Option ℚ
  tmax : Option ℚ
  tmin : Option ℚ
  maxRh : Option ℚ
  minRh : Option ℚ
deriving DecidableEq

inductive ScopeLevel where
  | circle
  | taluka
  | district
deriving DecidableEq

/-- The level filter at the top of both `calculate_weather_metrics`
variants (`App_8.py` lines 87-92, `App_2.py` lines 189-194). -/
def levelFilter (df : List WeatherRecord) : ScopeLevel → PyStr → List WeatherRecord
  | .circle, name => df.filter (fun r => r.circle == name)
  | .taluka, name => df.filter (fun r => r.taluka == name)
  | .district, name => df.filter (fun r => r.district == name)

/-- The level choice made by the callers (`App_8.py` line 218,
`App_2.py` lines 513-521): Circle if chosen, else Taluka, else District.
Python string truthiness: empty means not selected. -/
def levelOf (taluka circle : PyStr) : ScopeLevel :=
  if circle.isEmpty then (if taluka.isEmpty then .district else .taluka) else .circle

def levelName (district taluka circle : PyStr) : PyStr :=
  if circle.isEmpty then (if taluka.isEmpty then district else taluka) else circle

/-- The composed location scope: level choice followed by the level filter. -/
def resolveScope (df : List WeatherRecord) (district taluka circle : PyStr) : List WeatherRecord :=
  levelFilter df (levelOf taluka circle) (levelName district taluka circle)

/-- Since-sowing window, `(Date_dt >= sowing) & (Date_dt <= current)`,
identical in both variants (`App_8.py` line 98, `App_2.py` line 210). -/
def dasWindow (df : List WeatherRecord) (sow cur : ℤ) : List WeatherRecord :=
  df.filter (fun r => decide (sow ≤ r.dateIdx) && decide (r.dateIdx ≤ cur))

/-- `App_8.py` lines 99-102: `week_start = current - timedelta(days=6)`. -/
def weekWindow8 (df : List WeatherRecord) (cur : ℤ) : List WeatherRecord :=
  df.filter (fun r => decide (cur - 6 ≤ r.dateIdx) && decide (r.dateIdx ≤ cur))

/-- `App_8.py` lines 100-103: `month_start = current - timedelta(days=29)`. -/
def monthWindow8 (df : List WeatherRecord) (cur : ℤ) : List WeatherRecord :=
  df.filter (fun r => decide (cur - 29 ≤ r.dateIdx) && decide (r.dateIdx ≤ cur))

/-- `App_2.py` lines 205-208: `last_week_start = current - timedelta(days=7)`. -/
def weekWindow2 (df : List WeatherRecord) (cur : ℤ) : List WeatherRecord :=
  df.filter (fun r => decide (cur - 7 ≤ r.dateIdx) && decide (r.dateIdx ≤ cur))

/-- `App_2.py` lines 206-209: `last_month_start = current - timedelta(days=30)`. -/
def monthWindow2 (df : List WeatherRecord) (cur : ℤ) : List WeatherRecord :=
  df.filter (fun r => decide (cur - 30 ≤ r.dateIdx) && decide (r.dateIdx ≤ cur))

/-- Rainfall sum with missing readings treated as 0
(`fillna(0).sum()` in `App_8.py`, NaN-skipping `.sum()` in `App_2.py` —
the two are the same function of the data). -/
def sumRainfall (l : List WeatherRecord) : ℚ := (l.map (fun r => (r.rainfall.getD 0))).sum

/-- Rainy-day count, `(series > 0).sum()` (`App_8.py` lines 114-116):
missing readings compare as not-rainy. -/
def countRainy (l : List WeatherRecord) : ℕ :=
  (l.filter (fun r =>
    match r.rainfall with
    | some q => decide (0 < q)
    | none => false)).length

/-- `avg_ignore_zero_and_na` (`App_8.py` lines 118-123): drop missing
readings, drop readings equal to exactly 0, average the rest, `None` when
nothing remains. -/
def avgIgnoreZeroAndNa (xs : List (Option ℚ)) : Option ℚ :=
  if xs.isEmpty then none
  else if ((xs.filterMap id).filter (fun q => q != 0)).isEmpty then none
  else some (((xs.filterMap id).filter (fun q => q != 0)).sum / ((((xs.filterMap id).filter (fun q => q != 0)).length : ℕ) : ℚ))

/-- The averaging used by `App_2.py` lines 217-226:
`series.mean()` (which skips NaN but keeps zeros) when any non-missing
reading exists, else `None`. -/
def avgSkipNa (xs : List (Option ℚ)) : Option ℚ :=
  if (xs.filterMap id).isEmpty then none
  else some ((xs.filterMap id).sum / (((xs.filterMap id).length : ℕ) : ℚ))

structure WeatherMetrics8 where
  rainfallLastWeek : ℚ
  rainfallLastMonth : ℚ
  rainfallDas : ℚ
  rainyDaysWeek : ℕ
  rainyDaysMonth : ℕ
  rainyDaysDas : ℕ
  tmaxAvg : Option ℚ
  tminAvg : Option ℚ
  maxRhAvg : Option ℚ
  minRhAvg : Option ℚ
  das : ℤ
deriving DecidableEq

/-- `calculate_weather_metrics` (`App_8.py` lines 84-142). -/
def calculateWeatherMetrics8 (df : List WeatherRecord) (level : ScopeLevel) (name : PyStr) (sow cur : ℤ) : WeatherMetrics8 :=
  { rainfallLastWeek := sumRainfall (weekWindow8 (levelFilter df level name) cur)
    rainfallLastMonth := sumRainfall (monthWindow8 (levelFilter df level name) cur)
    rainfallDas := sumRainfall (dasWindow (levelFilter df level name) sow cur)
    rainyDaysWeek := countRainy (weekWindow8 (levelFilter df level name) cur)
    rainyDaysMonth := countRainy (monthWindow8 (levelFilter df level name) cur)
    rainyDaysDas := countRainy (dasWindow (levelFilter df level name) sow cur)
    tmaxAvg := avgIgnoreZeroAndNa ((dasWindow (levelFilter df level name) sow cur).map (fun r => r.tmax))
    tminAvg := avgIgnoreZeroAndNa ((dasWindow (levelFilter df level name) sow cur).map (fun r => r.tmin))
    maxRhAvg := avgIgnoreZeroAndNa ((dasWindow (levelFilter df level name) sow cur).map (fun r => r.maxRh))
    minRhAvg := avgIgnoreZeroAndNa ((dasWindow (levelFilter df level name) sow cur).map (fun r => r.minRh))
    das := max (cur - sow) 0 }

structure WeatherMetrics2 where
  rainfallLastWeek : ℚ
  rainfallLastMonth : ℚ
  rainfallDas : ℚ
  tmaxAvg : Option ℚ
  tminAvg : Option ℚ
  maxRhAvg : Option ℚ
  minRhAvg : Option ℚ
  das : ℤ
deriving DecidableEq

/-- `calculate_weather_metrics` (`App_2.py` lines 186-229). -/
def calculateWeatherMetrics2 (df : List WeatherRecord) (level : ScopeLevel) (name : PyStr) (sow cur : ℤ) : WeatherMetrics2 :=
  { rainfallLastWeek := sumRainfall (weekWindow2 (levelFilter df level name) cur)
    rainfallLastMonth := sumRainfall (monthWindow2 (levelFilter df level name) cur)
    rainfallDas := sumRainfall (dasWindow (levelFilter df level name) sow cur)
    tmaxAvg := avgSkipNa ((dasWindow (levelFilter df level name) sow cur).map (fun r => r.tmax))
    tminAvg := avgSkipNa ((dasWindow (levelFilter df level name) sow cur).map (fun r => r.tmin))
    maxRhAvg := avgSkipNa ((dasWindow (levelFilter df level name) sow cur).map (fun r => r.maxRh))
    minRhAvg := avgSkipNa ((dasWindow (levelFilter df level name) sow cur).map (fun r => r.minRh))
    das := max (cur - sow) 0 }

/-! ## Growth Advisory Matcher (`App_2.py` lines 270-327, `get_growth_advisory`) -/

structure GrowthRule where
  crop : PyStr
  dasSpec : PyStr
  idealWater : PyStr
  cond : PyStr
  stage : PyStr
  advisory : PyStr
deriving DecidableEq

def msgNoRules : PyStr := pyS ("No rules found for selected crop.")

def msgNoStage : PyStr := pyS ("No advisory available for this growth stage.")

/-- The f-string `"Crop is at {stage} stage ({das} DAS). {advisory}"`. -/
def advMsg (stage : PyStr) (das : ℤ) (adv : PyStr) : PyStr :=
  pyS ("Crop is at ") ++ stage ++ pyS (" stage (") ++ intToStr das ++ pyS (" DAS). ") ++ adv

/-- The `except:` branch of the fallback block (`App_2.py` lines 326-327). -/
def exceptAdvMsg (stage : PyStr) (das : ℤ) (matchRow : GrowthRule) : PyStr :=
  pyS ("Crop is at ") ++ stage ++ pyS (" stage (") ++ intToStr das ++ pyS (" DAS). Advisory: ") ++ matchRow.advisory

def growthCandidates (crop : PyStr) (rules : List GrowthRule) : List GrowthRule :=
  rules.filter (fun r => r.crop == crop)

def growthSameStage (stage : PyStr) (candidates : List GrowthRule) : List GrowthRule :=
  candidates.filter (fun r => r.stage == stage)

def growthDasPred (das : ℤ) (r : GrowthRule) : Bool := dasInRangeString2 das r.dasSpec

/-- The condition loop (`App_2.py` lines 296-303).  `parse_if_condition`
is called outside the per-row `try`, so a parse exception propagates out
of `get_growth_advisory`; an evaluator that returns `True` returns the
row's advisory; otherwise the loop continues.  The supplied rainfall is
numeric (it is the rainfall sum computed by the metrics), so
`float(rainfall_das)` and the evaluator call never raise here. -/
def growthCondLoop (stage : PyStr) (das : ℤ) (rain : ℚ) : List GrowthRule → Except Unit (Option PyStr)
  | [] => .ok none
  | r :: rest =>
    match parseIfCondition r.cond with
    | .error e => .error e
    | .ok cs =>
      if evaluatorRun cs (PyVal.num rain) then .ok (some (advMsg stage das r.advisory))
      else growthCondLoop stage das rain rest

def growthLtRows (sameStage : List GrowthRule) : List GrowthRule :=
  sameStage.filter (fun r => pyStartsWith (pyS ("<")) (pyTrim r.cond))

def growthGtRows (sameStage : List GrowthRule) : List GrowthRule :=
  sameStage.filter (fun r => pyStartsWith (pyS (">")) (pyTrim r.cond))

/-- The ideal-water fallback (`App_2.py` lines 305-327).  When
`parse_water_range` yields `(None, None)` the guarded block does nothing
and the function falls off the end, returning Python `None` (`none`).
The only exception the `try` can see with numeric rainfall is the
(unreachable, since `same_stage` contains `match_row`) `iloc[0]` on an
empty frame; it is modelled by the `head? = none` branch. -/
def growthFallback (stage : PyStr) (das : ℤ) (rain : ℚ) (matchRow : GrowthRule) (sameStage : List GrowthRule) : Option PyStr :=
  match parseWaterRange matchRow.idealWater with
  | none => none
  | some (minW, maxW) =>
    if minW ≤ rain ∧ rain ≤ maxW then
      match sameStage.head? with
      | some row0 => some (advMsg stage das row0.advisory)
      | none => some (exceptAdvMsg stage das matchRow)
    else if rain < minW then
      match (growthLtRows sameStage).head? with
      | some r => some (advMsg stage das r.advisory)
      | none => some (advMsg stage das (pyS ("Irrigation likely needed.")))
    else
      match (growthGtRows sameStage).head? with
      | some r => some (advMsg stage das r.advisory)
      | none => some (advMsg stage das (pyS ("Drainage may be required.")))

/-- `get_growth_advisory` (`App_2.py` lines 270-327).  `Except.error ()`
models an exception escaping the function; `Except.ok none` models the
implicit Python `None` return. -/
def getGrowthAdvisory (crop : PyStr) (das : ℤ) (rain : ℚ) (rules : List GrowthRule) : Except Unit (Option PyStr) :=
  if (growthCandidates crop rules).isEmpty then .ok (some msgNoRules)
  else
    match (growthCandidates crop rules).find? (growthDasPred das) with
    | none => .ok (some msgNoStage)
    | some matchRow =>
      match growthCondLoop matchRow.stage das rain (growthSameStage matchRow.stage (growthCandidates crop rules)) with
      | .error e => .error e
      | .ok (some s) => .ok (some s)
      | .ok none => .ok (growthFallback matchRow.stage das rain matchRow (growthSameStage matchRow.stage (growthCandidates crop rules)))

/-- Specification-level description of the Growth Advisory Matcher,
written from the claim: select the stage from the first crop rule whose
DAS range matches, return the advisory of the first same-stage rule whose
condition evaluates true on the since-sowing rainfall, otherwise fall
back on the parsed ideal-water range. -/
def claimGrowthAdvisory (crop : PyStr) (das : ℤ) (rain : ℚ) (rules : List GrowthRule) : Option PyStr :=
  if (growthCandidates crop rules).isEmpty then some msgNoRules
  else
    match (growthCandidates crop rules).find? (growthDasPred das) with
    | none => some msgNoStage
    | some matchRow =>
      match (growthSameStage matchRow.stage (growthCandidates crop rules)).find?
          (fun r => evaluatorRun (checksD r.cond) (PyVal.num rain)) with
      | some r => some (advMsg matchRow.stage das r.advisory)
      | none => growthFallback matchRow.stage das rain matchRow (growthSameStage matchRow.stage (growthCandidates crop rules))

/-! ## Sowing Advisory Matcher (`App_2.py` lines 346-437, `App_8.py` lines 144-166) -/

structure SowingRule where
  district : PyStr
  taluka : PyStr
  circle : PyStr
  crop : PyStr
  cond : PyStr
  comment : PyStr
deriving DecidableEq

/-- `normalize_fn_string`: drop every `.`, strip. -/
def normalizeFn (s : PyStr) : PyStr := pyTrim (pyReplace (pyS (".")) [] s)

/-- The f-string `"{IF condition}: {comment}"` built on a match. -/
def mkRowMsg (r : SowingRule) : PyStr := r.cond ++ pyS (": ") ++ r.comment

def tier1 (d t c crop : PyStr) (r : SowingRule) : Bool :=
  r.district == d && r.taluka == t && r.circle == c && r.crop == crop

def tier2 (d t crop : PyStr) (r : SowingRule) : Bool :=
  r.district == d && r.taluka == t && r.crop == crop

def tier3 (d crop : PyStr) (r : SowingRule) : Bool :=
  r.district == d && r.crop == crop

/-- The three hierarchy filters, most specific first
(`App_2.py` lines 352-356, `App_8.py` lines 151-155). -/
def tierFilters (d t c crop : PyStr) : List (SowingRule → Bool) :=
  [tier1 d t c crop, tier2 d t crop, tier3 d crop]

/-- The `<`-pattern comparison (`App_2.py` lines 372-389): strip all `<`,
split on whitespace, parse the month; earlier month matches, same month
matches when the target tag starts with `2` and the sowing fortnight tag
is `1FN`.  Any exception (empty split, bad month) is swallowed. -/
def ltCheckMatch (sowMonth : ℕ) (fn cond : PyStr) : Bool :=
  match pySplitWs (pyTrim (pyReplace (pyS ("<")) [] cond)) with
  | [] => false
  | tfn :: restParts =>
    match monthNum (joinSpace restParts) with
    | none => false
    | some tm =>
      if sowMonth < tm then true
      else if sowMonth == tm then pyStartsWith (pyS ("2")) (pyUpper tfn) && pyStartsWith (pyS ("1FN")) fn
      else false

/-- The `>`-pattern comparison (`App_2.py` lines 391-405), symmetric. -/
def gtCheckMatch (sowMonth : ℕ) (fn cond : PyStr) : Bool :=
  match pySplitWs (pyTrim (pyReplace (pyS (">")) [] cond)) with
  | [] => false
  | tfn :: restParts =>
    match monthNum (joinSpace restParts) with
    | none => false
    | some tm =>
      if tm < sowMonth then true
      else if sowMonth == tm then pyStartsWith (pyS ("1")) (pyUpper tfn) && pyStartsWith (pyS ("2FN")) fn
      else false

/-- The fortnight-range comparison (`App_2.py` lines 408-428): the
condition must split on `"to"` into exactly two tokens (otherwise the
unpack raises and is swallowed), each stripped and indexed by `fn_index`;
a failing index lookup is swallowed. -/
def rangeCheckMatch (fn cond : PyStr) : Bool :=
  match pySplit (pyS ("to")) cond with
  | [l, r] =>
    match fnIndexTok fn, fnIndexTok (pyTrim l), fnIndexTok (pyTrim r) with
    | some i, some li, some ri => decide (li ≤ i) && decide (i ≤ ri)
    | _, _, _ => false
  | _ => false

/-- One row of the `App_2.py` matching loop (lines 362-428): an empty
condition is skipped; then the four checks run in order, each returning
the same formatted row message on success. -/
def rowMatch (sowMonth : ℕ) (fn : PyStr) (r : SowingRule) : Option PyStr :=
  let cond := normalizeFn r.cond
  if cond.isEmpty then none
  else if pyContainsSub (pyLower fn) (pyLower cond) then some (mkRowMsg r)
  else if pyStartsWith (pyS ("<")) cond && ltCheckMatch sowMonth fn cond then some (mkRowMsg r)
  else if pyStartsWith (pyS (">")) cond && gtCheckMatch sowMonth fn cond then some (mkRowMsg r)
  else if pyContainsSub (pyS ("to")) cond && rangeCheckMatch fn cond then some (mkRowMsg r)
  else none

def firstRowMatch (sowMonth : ℕ) (fn : PyStr) : List SowingRule → Option PyStr
  | [] => none
  | r :: rest =>
    match rowMatch sowMonth fn r with
    | some s => some s
    | none => firstRowMatch sowMonth fn rest

/-- The generic fallback advisory (`App_2.py` lines 433-437). -/
def sowingFallback (fn : PyStr) : PyStr :=
  if pyStartsWith (pyS ("1FN")) fn then
    pyS ("1FN (Month Date between 1 to 15): Early sowing/First fortnight sowing behavior.")
  else
    pyS ("2FN (Month Date between 16 to 31): Late sowing/Second fortnight sowing behavior.")

/-- The filter loop of `get_sowing_advisory` (`App_2.py` lines 358-431):
the first non-empty subset is processed and the loop `break`s
unconditionally afterwards, so later tiers are never consulted. -/
def sowingGo (sowMonth : ℕ) (fn : PyStr) (rows : List SowingRule) : List (SowingRule → Bool) → PyStr
  | [] => sowingFallback fn
  | f :: fs =>
    if (rows.filter f).isEmpty then sowingGo sowMonth fn rows fs
    else
      match firstRowMatch sowMonth fn (rows.filter f) with
      | some s => s
      | none => sowingFallback fn

/-- `get_sowing_advisory` (`App_2.py` lines 346-437), with the sowing date
given as (day, month). -/
def getSowingAdvisory (sowDay sowMonth : ℕ) (district taluka circle crop : PyStr) (rows : List SowingRule) : PyStr :=
  sowingGo sowMonth (fnFromDate sowDay sowMonth) rows (tierFilters district taluka circle crop)

/-- The per-tier comment collection of `get_sowing_comments`
(`App_8.py` lines 160-163): a row contributes when its normalized
condition is non-empty and contains the fortnight token case-insensitively. -/
def tierMatches8 (fn : PyStr) (subset : List SowingRule) : List PyStr :=
  subset.filterMap (fun r =>
    if !(normalizeFn r.cond).isEmpty && pyContainsSub (pyLower fn) (pyLower (normalizeFn r.cond)) then
      some (mkRowMsg r)
    else none)

/-- The filter loop of `get_sowing_comments` (`App_8.py` lines 157-165):
`break` happens only when `results` is non-empty, so a non-empty tier
whose rows all fail to match falls through to the next tier. -/
def commentsGo (fn : PyStr) (rows : List SowingRule) : List (SowingRule → Bool) → List PyStr
  | [] => []
  | f :: fs =>
    if (rows.filter f).isEmpty then commentsGo fn rows fs
    else
      if (tierMatches8 fn (rows.filter f)).isEmpty then commentsGo fn rows fs
      else tierMatches8 fn (rows.filter f)

/-- `get_sowing_comments` (`App_8.py` lines 144-166). -/
def getSowingComments (sowDay sowMonth : ℕ) (district taluka circle crop : PyStr) (rows : List SowingRule) : List PyStr :=
  commentsGo (fnFromDate sowDay sowMonth) rows (tierFilters district taluka circle crop)

/-- Specification-level description of the `App_2.py` tier logic: commit
to the first filter tier with a non-empty row set; the first matching row
there wins; with no match, the generic fallback is returned — later tiers
are never consulted. -/
def sowingAdvisorySpec (sowDay sowMonth : ℕ) (district taluka circle crop : PyStr) (rows : List SowingRule) : PyStr :=
  match ((tierFilters district taluka circle crop).map (fun f => rows.filter f)).find? (fun l => !l.isEmpty) with
  | none => sowingFallback (fnFromDate sowDay sowMonth)
  | some subset =>
    (firstRowMatch sowMonth (fnFromDate sowDay sowMonth) subset).getD (sowingFallback (fnFromDate sowDay sowMonth))

/-- Specification-level description of the `App_8.py` tier logic: the
result is the match list of the first tier that produces at least one
matching comment (an empty list when no tier does). -/
def sowingCommentsSpec (sowDay sowMonth : ℕ) (district taluka circle crop : PyStr) (rows : List SowingRule) : List PyStr :=
  (((tierFilters district taluka circle crop).map
      (fun f => tierMatches8 (fnFromDate sowDay sowMonth) (rows.filter f))).find?
    (fun l => !l.isEmpty)).getD []

/-! ## Claim-side definitions and concrete data for the claim theorems -/

/-- The check constructor the source pairs with each operator token. -/
def mkCheckFor (op : PyStr) (v : ℚ) : CondCheck :=
  match op with
  | ['>', '='] => .ge v
  | ['<', '='] => .le v
  | ['>'] => .gt v
  | _ => .lt v

/-- The DAS-spec grammar exactly as the claim states it: `"a to b"` with
two integer fragments, an integer followed by a single trailing `+`, or a
bare integer. -/
def dasFormClaim (das : ℤ) (s0 : PyStr) : Bool :=
  if pyContainsSub (pyS ("to")) (pyTrim s0) then
    match pySplit (pyS ("to")) (pyTrim s0) with
    | [x, y] =>
      match intParse x, intParse y with
      | some a, some b => decide (a ≤ das ∧ das ≤ b)
      | _, _ => false
    | _ => false
  else if pyEndsWith (pyS ("+")) (pyTrim s0) then
    match intParse ((pyTrim s0).dropLast) with
    | some a => decide (a ≤ das)
    | none => false
  else
    match intParse (pyTrim s0) with
    | some a => a == das
    | none => false

/-- The amended DAS-spec grammar for `App_8.py`: as the claim states it,
except that the open-ended form accepts any spec ending in `+` whose
remaining characters (after deleting every `+`) parse as an integer. -/
def dasFormAmended8 (das : ℤ) (s0 : PyStr) : Bool :=
  if pyContainsSub (pyS ("to")) (pyTrim s0) then
    match pySplit (pyS ("to")) (pyTrim s0) with
    | [x, y] =>
      match intParse x, intParse y with
      | some a, some b => decide (a ≤ das ∧ das ≤ b)
      | _, _ => false
    | _ => false
  else if pyEndsWith (pyS ("+")) (pyTrim s0) then
    match intParse (pyReplace (pyS ("+")) [] (pyTrim s0)) with
    | some a => decide (a ≤ das)
    | none => false
  else
    match intParse (pyTrim s0) with
    | some a => a == das
    | none => false

/-- The amended DAS-spec grammar for `App_2.py`: additionally, the range
form only looks at the first two `"to"`-separated fragments. -/
def dasFormAmended2 (das : ℤ) (s0 : PyStr) : Bool :=
  if pyContainsSub (pyS ("to")) (pyTrim s0) then
    match (pySplit (pyS ("to")) (pyTrim s0)).take 2 with
    | [x, y] =>
      match intParse x, intParse y with
      | some a, some b => decide (a ≤ das ∧ das ≤ b)
      | _, _ => false
    | _ => false
  else if pyEndsWith (pyS ("+")) (pyTrim s0) then
    match intParse (pyReplace (pyS ("+")) [] (pyTrim s0)) with
    | some a => decide (a ≤ das)
    | none => false
  else
    match intParse (pyTrim s0) with
    | some a => a == das
    | none => false

/-- A weather record dated 7 days before day 100. -/
def recDay93 : WeatherRecord :=
  { district := pyS ("D"), taluka := pyS ("T"), circle := pyS ("C"), dateIdx := 93,
    rainfall := some 1, tmax := none, tmin := none, maxRh := none, minRh := none }

/-- A weather record dated 30 days before day 100. -/
def recDay70 : WeatherRecord :=
  { district := pyS ("D"), taluka := pyS ("T"), circle := pyS ("C"), dateIdx := 70,
    rainfall := some 1, tmax := none, tmin := none, maxRh := none, minRh := none }

/-- A growth rule whose ideal-water spec is unparseable. -/
def ruleC10 : GrowthRule :=
  { crop := pyS ("Paddy"), dasSpec := pyS ("0 to 10"), idealWater := pyS ("abc"),
    cond := pyS ("5"), stage := pyS ("S"), advisory := pyS ("A") }

/-- The Rice/Tillering rule pair from the specification scenario. -/
def riceRules : List GrowthRule :=
  [{ crop := pyS ("Rice"), dasSpec := pyS ("15 to 45"), idealWater := pyS ("30 to 60"),
     cond := pyS ("<30"), stage := pyS ("Tillering"), advisory := pyS ("irrigate") },
   { crop := pyS ("Rice"), dasSpec := pyS ("15 to 45"), idealWater := pyS ("30 to 60"),
     cond := pyS (">=30"), stage := pyS ("Tillering"), advisory := pyS ("hold water") }]

/-- A tier-1 sowing rule whose condition does not match a June sowing. -/
def sowRow1 : SowingRule :=
  { district := pyS ("D"), taluka := pyS ("T"), circle := pyS ("C"), crop := pyS ("P"),
    cond := pyS ("1FN July"), comment := pyS ("late") }

/-- A tier-2 sowing rule (different circle) whose condition matches a
June sowing. -/
def sowRow2 : SowingRule :=
  { district := pyS ("D"), taluka := pyS ("T"), circle := pyS ("Z"), crop := pyS ("P"),
    cond := pyS ("1FN June"), comment := pyS ("ok") }

/-- Decidable equality of `Except` values, so that concrete parse
results can be evaluated by `decide`. -/
instance {ε α : Type} [DecidableEq ε] [DecidableEq α] : DecidableEq (Except ε α) := fun a b =>
  match a, b with
  | .error e1, .error e2 => decidable_of_iff (e1 = e2) (by simp)
  | .ok a1, .ok a2 => decidable_of_iff (a1 = a2) (by simp)
  | .error _, .ok _ => .isFalse (fun he => Except.noConfusion he)
  | .ok _, .error _ => .isFalse (fun he => Except.noConfusion he)

/-! ## Helper lemmas -/

theorem isEmpty_false_of_ne {α : Type} {l : List α} (h : l ≠ []) : l.isEmpty = false := by
  cases l with
  | nil => exact absurd rfl h
  | cons a as => rfl

theorem runChecks_num (cs : List CondCheck) (q : ℚ) :
    runChecks cs (PyVal.num q) = Except.ok (cs.all (fun c => checkHolds c q)) := by
  induction cs with
  | nil => rfl
  | cons c rest ih =>
    simp only [runChecks, evalCheckE, List.all_cons]
    cases hb : checkHolds c q
    · simp
    · simp [ih]

theorem parseFragment_eq (p : PyStr) :
    parseFragment p =
      match opHeadTok p with
      | some op =>
        (match floatParse (pyTrim (pyReplace op [] p)) with
         | some v => Except.ok (some (mkCheckFor op v))
         | none => Except.error ())
      | none =>
        (match floatParse p with
         | some v => Except.ok (some (CondCheck.eq v))
         | none => Except.ok none) := by
  cases h1 : pyStartsWith (pyS (">=")) p with
  | true =>
    simp [parseFragment, opHeadTok, h1]
    try rfl
  | false =>
  cases h2 : pyStartsWith (pyS ("<=")) p with
  | true =>
    simp [parseFragment, opHeadTok, h1, h2]
    try rfl
  | false =>
  cases h3 : pyStartsWith (pyS (">")) p with
  | true =>
    simp [parseFragment, opHeadTok, h1, h2, h3]
    try rfl
  | false =>
  cases h4 : pyStartsWith (pyS ("<")) p with
  | true =>
    simp [parseFragment, opHeadTok, h1, h2, h3, h4]
    try rfl
  | false =>
    simp [parseFragment, opHeadTok, h1, h2, h3, h4]

/-! ## Claim theorems -/

/-- C3 (amended): the condition string is stripped, lowercase `and` and
uppercase `AND` are substituted by `&`, and the string is split on `&`;
a fragment with no leading comparison operator never aborts the parse
and is silently skipped when it is not numeric; a fragment with a
leading comparison operator aborts the whole parse exactly when its
remainder (after deleting the operator token) is not numeric; a parse
with zero usable comparisons yields a predicate returning true for
every input. -/
theorem claim_C3_fragment_handling (p : PyStr) (v : PyVal) :
    (opHeadTok p = none → parseFragment p ≠ Except.error ()) ∧
    (opHeadTok p = none → floatParse p = none → parseFragment p = Except.ok none) ∧
    (∀ op, opHeadTok p = some op →
      (parseFragment p = Except.error () ↔ floatParse (pyTrim (pyReplace op [] p)) = none)) ∧
    evaluatorRun [] v = true ∧
    (∀ s, parseIfCondition s = collectChecks ((pySplitChar '&' (normalizeCondStr s)).map pyTrim)) := by
  refine ⟨?_, ?_, ?_, rfl, fun s => rfl⟩
  · intro hop
    rw [parseFragment_eq, hop]
    cases hf : floatParse p with
    | some w => simp [hf]
    | none => simp [hf]
  · intro hop hf
    rw [parseFragment_eq, hop, hf]
  · intro op hop
    rw [parseFragment_eq, hop]
    cases hf : floatParse (pyTrim (pyReplace op [] p)) with
    | some w => simp [hf]
    | none => simp [hf]

/-- C3 witness: a fragment without an operator head never aborts. -/
theorem claim_C3_witness : parseFragment (pyS ("abc")) ≠ Except.error () :=
  (claim_C3_fragment_handling (pyS ("abc")) PyVal.nonNum).1 (by decide)

/-- C3 counterexample: on `">=10 And <=30"` the mixed-case conjunction is
not recognised and the operator fragment's `float` call raises, so the
whole parse aborts — the claim instead promises the fragment is split on
a case-insensitive `and` (or, failing that, silently skipped).  The
`&`-spelled variant of the same condition parses into two checks. -/
theorem claim_C3_counterexample :
    parseIfCondition (pyS (">=10 And <=30")) = Except.error () ∧
    parseIfCondition (pyS (">=10 & <=30")) = Except.ok [CondCheck.ge (mkRat 10 1), CondCheck.le (mkRat 30 1)] := by
  constructor
  · rfl
  · rfl

/-- C4: parsed comparisons are combined conjunctively — on a numeric
value the evaluator returns exactly the conjunction of all checks — and
evaluation never raises: when the underlying check loop raises, the
evaluator returns false. -/
theorem claim_C4_evaluator_safety (cs : List CondCheck) (q : ℚ) (v : PyVal) :
    evaluatorRun cs (PyVal.num q) = cs.all (fun c => checkHolds c q) ∧
    (runChecks cs v = Except.error () → evaluatorRun cs v = false) := by
  constructor
  · simp [evaluatorRun, runChecks_num]
  · intro h
    simp [evaluatorRun, h]

/-- C4 witness: a non-numeric value makes the ordering check raise and
the evaluator return false. -/
theorem claim_C4_witness : evaluatorRun [CondCheck.ge (mkRat 5 1)] PyVal.nonNum = false :=
  (claim_C4_evaluator_safety [CondCheck.ge (mkRat 5 1)] 0 PyVal.nonNum).2 rfl

/-- C5 (amended): all five aggregation windows are inclusive of both
endpoints; the since-sowing window is `[sowingDate, currentDate]` in both
variants; `App_8.py` uses `[currentDate - 6, currentDate]` (7 days) and
`[currentDate - 29, currentDate]` (30 days), while `App_2.py` uses
`[currentDate - 7, currentDate]` (8 days) and
`[currentDate - 30, currentDate]` (31 days). -/
theorem claim_C5_windows (df : List WeatherRecord) (sow cur : ℤ) (r : WeatherRecord) :
    (r ∈ dasWindow df sow cur ↔ r ∈ df ∧ sow ≤ r.dateIdx ∧ r.dateIdx ≤ cur) ∧
    (r ∈ weekWindow8 df cur ↔ r ∈ df ∧ cur - 6 ≤ r.dateIdx ∧ r.dateIdx ≤ cur) ∧
    (r ∈ monthWindow8 df cur ↔ r ∈ df ∧ cur - 29 ≤ r.dateIdx ∧ r.dateIdx ≤ cur) ∧
    (r ∈ weekWindow2 df cur ↔ r ∈ df ∧ cur - 7 ≤ r.dateIdx ∧ r.dateIdx ≤ cur) ∧
    (r ∈ monthWindow2 df cur ↔ r ∈ df ∧ cur - 30 ≤ r.dateIdx ∧ r.dateIdx ≤ cur) := by
  refine ⟨?_, ?_, ?_, ?_, ?_⟩ <;>
    simp [dasWindow, weekWindow8, monthWindow8, weekWindow2, monthWindow2,
      List.mem_filter, and_assoc]

/-- C5 counterexample: a record dated `currentDate - 7` lies inside
`App_2.py`'s last-week window although the claimed window
`[currentDate - 6, currentDate]` excludes it, and a record dated
`currentDate - 30` lies inside `App_2.py`'s last-month window although
the claimed `[currentDate - 29, currentDate]` excludes it; `App_8.py`
excludes both, as the claim states. -/
theorem claim_C5_counterexample :
    weekWindow2 [recDay93] 100 = [recDay93] ∧ recDay93.dateIdx < 100 - 6 ∧
    weekWindow8 [recDay93] 100 = [] ∧
    monthWindow2 [recDay70] 100 = [recDay70] ∧ recDay70.dateIdx < 100 - 29 ∧
    monthWindow8 [recDay70] 100 = [] := by
  refine ⟨rfl, by decide, rfl, rfl, by decide, rfl⟩

/-- C9: the resolved location scope is a strict three-level fallback —
exactly the records matching the chosen circle when a circle is chosen,
else exactly those matching the chosen taluka when a taluka is chosen,
else exactly those matching the chosen district; levels are never
unioned. -/
theorem claim_C9_location_scope (df : List WeatherRecord) (district taluka circle : PyStr) (r : WeatherRecord) :
    r ∈ resolveScope df district taluka circle ↔
      r ∈ df ∧ (if circle ≠ [] then r.circle = circle
                else if taluka ≠ [] then r.taluka = taluka
                else r.district = district) := by
  rcases eq_or_ne circle [] with hc | hc
  · rcases eq_or_ne taluka [] with ht | ht
    · subst hc; subst ht
      simp [resolveScope, levelOf, levelName, levelFilter, List.mem_filter]
    · subst hc
      simp [resolveScope, levelOf, levelName, levelFilter, List.mem_filter,
        isEmpty_false_of_ne ht, ht]
  · simp [resolveScope, levelOf, levelName, levelFilter, List.mem_filter,
      isEmpty_false_of_ne hc, hc]

/-- C10: a matched DAS range does not guarantee an advisory — with a rule
whose DAS range matches but whose condition fails on the rainfall and
whose ideal-water spec is unparseable, `get_growth_advisory` falls off
the end and returns Python `None`. -/
theorem claim_C10_none_advisory :
    growthDasPred 3 ruleC10 = true ∧
    getGrowthAdvisory (pyS ("Paddy")) 3 7 [ruleC10] = Except.ok none := by
  refine ⟨by decide, rfl⟩

theorem intParseAll_length {l : List PyStr} {l2 : List ℤ} (h : intParseAll l = some l2) :
    l2.length = l.length := by
  induction l generalizing l2 with
  | nil =>
    simp only [intParseAll, Option.some.injEq] at h
    subst h
    rfl
  | cons p ps ih =>
    simp only [intParseAll] at h
    cases hx : intParse p with
    | none => rw [hx] at h; exact absurd h (by simp)
    | some a =>
      rw [hx] at h
      cases hr : intParseAll ps with
      | none => rw [hr] at h; exact absurd h (by simp)
      | some rest =>
        rw [hr] at h
        simp only [Option.some.injEq] at h
        subst h
        simp [ih hr]

/-- C7 (amended): both DAS matchers implement the claimed grammar with
two deviations — the open-ended form accepts any spec ending in `+`
whose remaining characters after deleting every `+` parse as an integer
(not just a single trailing `+`), and `App_2.py`'s range form only
consults the first two `"to"`-separated fragments. -/
theorem claim_C7_das_matcher (das : ℤ) (s : PyStr) :
    dasInRangeString8 das s = dasFormAmended8 das s ∧
    dasInRangeString2 das s = dasFormAmended2 das s := by
  constructor
  · simp only [dasInRangeString8, dasFormAmended8]
    by_cases hto : pyContainsSub (pyS ("to")) (pyTrim s) = true
    · simp only [hto, if_true]
      generalize pySplit (pyS ("to")) (pyTrim s) = l
      match l with
      | [] => simp [intParseAll]
      | [x] =>
        cases hx : intParse x <;> simp [intParseAll, hx]
      | [x, y] =>
        cases hx : intParse x <;> cases hy : intParse y <;> simp [intParseAll, hx, hy]
      | x :: y :: z :: zs =>
        cases h : intParseAll (x :: y :: z :: zs) with
        | none => simp
        | some l2 =>
          have hlen := intParseAll_length h
          match l2 with
          | [] => simp
          | [a] => simp
          | [a, b] =>
            exfalso
            simp only [List.length_cons, List.length_nil] at hlen
            omega
          | a :: b :: c :: cs => simp
    · simp [hto]
  · simp only [dasInRangeString2, dasFormAmended2]
    by_cases hto : pyContainsSub (pyS ("to")) (pyTrim s) = true
    · simp only [hto, if_true]
      generalize pySplit (pyS ("to")) (pyTrim s) = l
      match l with
      | [] => simp
      | [x] => simp
      | x :: y :: ys => simp
    · simp [hto]

/-- C7 counterexample: the spec `"1+1+"` is none of the claimed forms
(`"a to b"`, `"a+"`, bare integer), yet both matchers delete every `+`,
parse `11`, and accept any `das ≥ 11`; and the spec `"1 to 2 to 3"` is
also none of the claimed forms, yet `App_2.py`'s matcher reads it as
`1 to 2` (while `App_8.py`'s rejects it). -/
theorem claim_C7_counterexample :
    dasFormClaim 11 (pyS ("1+1+")) = false ∧
    dasInRangeString8 11 (pyS ("1+1+")) = true ∧
    dasInRangeString2 11 (pyS ("1+1+")) = true ∧
    dasFormClaim 1 (pyS ("1 to 2 to 3")) = false ∧
    dasInRangeString2 1 (pyS ("1 to 2 to 3")) = true ∧
    dasInRangeString8 1 (pyS ("1 to 2 to 3")) = false := by
  refine ⟨by decide, by decide, by decide, by decide, by decide, by decide⟩

theorem sowingGo_eq (m : ℕ) (fn : PyStr) (rows : List SowingRule) (fs : List (SowingRule → Bool)) :
    sowingGo m fn rows fs =
      match (fs.map (fun f => rows.filter f)).find? (fun l => !l.isEmpty) with
      | none => sowingFallback fn
      | some subset => (firstRowMatch m fn subset).getD (sowingFallback fn) := by
  induction fs with
  | nil => rfl
  | cons f fs ih =>
    simp only [sowingGo, List.map_cons, List.find?_cons]
    cases hs : (rows.filter f).isEmpty with
    | true => simp [hs, ih]
    | false =>
      cases hm : firstRowMatch m fn (rows.filter f) with
      | some s => simp [hs, hm]
      | none => simp [hs, hm]

theorem commentsGo_eq (fn : PyStr) (rows : List SowingRule) (fs : List (SowingRule → Bool)) :
    commentsGo fn rows fs =
      ((fs.map (fun f => tierMatches8 fn (rows.filter f))).find? (fun l => !l.isEmpty)).getD [] := by
  induction fs with
  | nil => rfl
  | cons f fs ih =>
    simp only [commentsGo, List.map_cons, List.find?_cons]
    cases hs : (rows.filter f).isEmpty with
    | true =>
      have hsub : rows.filter f = [] := List.isEmpty_iff.mp hs
      simp [hs, hsub, ih, tierMatches8]
    | false =>
      cases hm : (tierMatches8 fn (rows.filter f)).isEmpty with
      | true =>
        have hres : tierMatches8 fn (rows.filter f) = [] := List.isEmpty_iff.mp hm
        simp [hs, hm, hres, ih]
      | false => simp [hs, hm]

/-- C2 (amended): `App_2.py`'s `get_sowing_advisory` commits to the first
filter tier with a non-empty row set — when no row of that tier matches
it returns the generic fortnight message (not a tier from further down);
`App_8.py`'s `get_sowing_comments` instead stops at the first tier that
produces at least one matching comment, so a non-empty tier whose rows
all fail to match is fallen through. -/
theorem claim_C2_tier_commit (sowDay sowMonth : ℕ) (district taluka circle crop : PyStr) (rows : List SowingRule) :
    getSowingAdvisory sowDay sowMonth district taluka circle crop rows =
      sowingAdvisorySpec sowDay sowMonth district taluka circle crop rows ∧
    getSowingComments sowDay sowMonth district taluka circle crop rows =
      sowingCommentsSpec sowDay sowMonth district taluka circle crop rows := by
  constructor
  · unfold getSowingAdvisory sowingAdvisorySpec
    rw [sowingGo_eq]
  · unfold getSowingComments sowingCommentsSpec
    rw [commentsGo_eq]

/-- C2 counterexample: with a tier-1 row whose condition fails and a
tier-2 row whose condition matches, `get_sowing_comments` (`App_8.py`)
returns the tier-2 comment instead of the claimed "no matching sowing
advisory" report, falling through the committed tier; and
`get_sowing_advisory` (`App_2.py`), which does commit, reports the
generic fortnight advisory rather than a no-match report. -/
theorem claim_C2_counterexample :
    [sowRow1, sowRow2].filter (tier1 (pyS ("D")) (pyS ("T")) (pyS ("C")) (pyS ("P"))) = [sowRow1] ∧
    tierMatches8 (fnFromDate 10 6) [sowRow1] = [] ∧
    getSowingComments 10 6 (pyS ("D")) (pyS ("T")) (pyS ("C")) (pyS ("P")) [sowRow1, sowRow2] =
      [pyS ("1FN June: ok")] ∧
    getSowingAdvisory 10 6 (pyS ("D")) (pyS ("T")) (pyS ("C")) (pyS ("P")) [sowRow1, sowRow2] =
      sowingFallback (fnFromDate 10 6) := by
  refine ⟨by decide, by decide, by decide, by decide⟩

/-- C6 (amended): `App_8.py`'s since-sowing averaging excludes a reading
that is missing or exactly 0 and returns null — never 0 — when nothing
remains; `App_2.py`'s averaging excludes only missing readings (zeros are
kept and an all-zero column averages to 0, not null).  Both variants
compute the temperature/humidity averages only over the since-sowing
window of the scoped records. -/
theorem claim_C6_averaging (xs : List (Option ℚ)) :
    ((∀ x ∈ xs, x = none ∨ x = some 0) → avgIgnoreZeroAndNa xs = none) ∧
    (avgSkipNa xs = none ↔ ∀ x ∈ xs, x = none) ∧
    (∀ (df : List WeatherRecord) (level : ScopeLevel) (name : PyStr) (sow cur : ℤ),
      (calculateWeatherMetrics8 df level name sow cur).tmaxAvg =
        avgIgnoreZeroAndNa ((dasWindow (levelFilter df level name) sow cur).map (fun r => r.tmax))) ∧
    (∀ (df : List WeatherRecord) (level : ScopeLevel) (name : PyStr) (sow cur : ℤ),
      (calculateWeatherMetrics2 df level name sow cur).tmaxAvg =
        avgSkipNa ((dasWindow (levelFilter df level name) sow cur).map (fun r => r.tmax))) := by
  refine ⟨?_, ?_, fun _ _ _ _ _ => rfl, fun _ _ _ _ _ => rfl⟩
  · intro h
    have hclean : ((xs.filterMap id).filter (fun q => q != 0)) = [] := by
      rw [List.filter_eq_nil_iff]
      intro a ha
      rw [List.mem_filterMap] at ha
      obtain ⟨x, hx, hxa⟩ := ha
      rcases h x hx with rfl | rfl
      · exact absurd hxa (by simp)
      · have : a = 0 := by simpa using hxa.symm
        subst this
        simp
    simp [avgIgnoreZeroAndNa, hclean]
  · cases hfm : xs.filterMap id with
    | nil =>
      have hall : ∀ x ∈ xs, x = none := by
        have := List.filterMap_eq_nil_iff.mp hfm
        intro x hx
        simpa using this x hx
      simp only [avgSkipNa, hfm]
      exact iff_of_true (by simp) hall
    | cons a rest =>
      have hne : ¬(∀ x ∈ xs, x = none) := by
        intro hall
        have : xs.filterMap id = [] :=
          List.filterMap_eq_nil_iff.mpr (by intro x hx; simp [hall x hx])
        rw [hfm] at this
        exact absurd this (by simp)
      simp [avgSkipNa, hfm, hne]

/-- C6 witness: an all-zero-or-missing column averages to null under the
`App_8.py` policy. -/
theorem claim_C6_witness :
    (∀ x ∈ [some (0 : ℚ), none], x = none ∨ x = some 0) ∧
    avgIgnoreZeroAndNa [some (0 : ℚ), none] = none :=
  ⟨by decide, (claim_C6_averaging [some (0 : ℚ), none]).1 (by decide)⟩

/-- C6 counterexample: a single reading equal to exactly 0 is averaged to
0 (not excluded, not null) by `App_2.py`'s averaging, while the claimed
policy (implemented by `App_8.py`) returns null on the same data. -/
theorem claim_C6_counterexample :
    avgSkipNa [some (0 : ℚ)] = some 0 ∧ avgIgnoreZeroAndNa [some (0 : ℚ)] = none := by
  constructor
  · simp [avgSkipNa]
  · decide

theorem monthNum_monthName_aux : ∀ m : ℕ, m < 13 → 1 ≤ m → monthNum (monthName m) = some m := by
  decide

theorem fnIndexTok_fnFromDate (d m : ℕ) (h1 : 1 ≤ m) (h2 : m ≤ 12) :
    fnIndexTok (fnFromDate d m) = some ((m - 1) * 2 + (fortHalf d - 1)) := by
  by_cases hd : d ≤ 15
  · have hf : fnFromDate d m = pyS ("1FN ") ++ monthName m := by simp [fnFromDate, hd]
    have hh : fortHalf d = 1 := by simp [fortHalf, hd]
    rw [hf, hh]
    interval_cases m <;> decide
  · have hf : fnFromDate d m = pyS ("2FN ") ++ monthName m := by simp [fnFromDate, hd]
    have hh : fortHalf d = 2 := by simp [fortHalf, hd]
    rw [hf, hh]
    interval_cases m <;> decide

/-- C8: the fortnight half is 1 for day-of-month at most 15 and 2
otherwise; the fortnight index of a token equals
`(monthNumber - 1) * 2 + (half - 1)`; and comparing two such indexes by
integer comparison agrees exactly with calendar order of (month, half)
within a reference year. -/
theorem claim_C8_fortnight_order (d1 m1 d2 m2 : ℕ)
    (h11 : 1 ≤ m1) (h12 : m1 ≤ 12) (h21 : 1 ≤ m2) (h22 : m2 ≤ 12) :
    fnIndexTok (fnFromDate d1 m1) = some ((m1 - 1) * 2 + (fortHalf d1 - 1)) ∧
    ((fnIndexTok (fnFromDate d1 m1)).getD 0 < (fnIndexTok (fnFromDate d2 m2)).getD 0 ↔
      (m1 < m2 ∨ (m1 = m2 ∧ fortHalf d1 < fortHalf d2))) := by
  refine ⟨fnIndexTok_fnFromDate d1 m1 h11 h12, ?_⟩
  rw [fnIndexTok_fnFromDate d1 m1 h11 h12, fnIndexTok_fnFromDate d2 m2 h21 h22]
  have hh1 : fortHalf d1 = 1 ∨ fortHalf d1 = 2 := by unfold fortHalf; split <;> simp
  have hh2 : fortHalf d2 = 1 ∨ fortHalf d2 = 2 := by unfold fortHalf; split <;> simp
  simp only [Option.getD_some]
  omega

/-- C8 witness: the June scenario from the specification. -/
theorem claim_C8_witness :
    fnIndexTok (fnFromDate 10 6) = some ((6 - 1) * 2 + (fortHalf 10 - 1)) ∧
    ((fnIndexTok (fnFromDate 10 6)).getD 0 < (fnIndexTok (fnFromDate 20 6)).getD 0 ↔
      (6 < 6 ∨ (6 = 6 ∧ fortHalf 10 < fortHalf 20))) :=
  claim_C8_fortnight_order 10 6 20 6 (by decide) (by decide) (by decide) (by decide)

theorem growthCondLoop_eq (stage : PyStr) (das : ℤ) (rain : ℚ) (l : List GrowthRule)
    (h : ∀ r ∈ l, parseIfCondition r.cond ≠ Except.error ()) :
    growthCondLoop stage das rain l =
      Except.ok ((l.find? (fun r => evaluatorRun (checksD r.cond) (PyVal.num rain))).map
        (fun r => advMsg stage das r.advisory)) := by
  induction l with
  | nil => rfl
  | cons r rest ih =>
    have hr := h r (List.mem_cons_self r rest)
    cases hp : parseIfCondition r.cond with
    | error e => cases e; exact absurd hp hr
    | ok cs =>
      have hch : checksD r.cond = cs := by simp [checksD, hp]
      have ihr := ih (fun x hx => h x (List.mem_cons_of_mem _ hx))
      cases hb : evaluatorRun cs (PyVal.num rain) with
      | true =>
        simp [growthCondLoop, hp, hb, List.find?_cons, hch]
      | false =>
        simp [growthCondLoop, hp, hb, List.find?_cons, hch, ihr]

/-- C1: the growth advisory disambiguation works exactly as claimed —
the first crop rule whose DAS range matches selects the stage; the
same-stage rules are scanned in table order and the first whose condition
evaluates true on the since-sowing rainfall supplies the advisory; with
no condition match, the parsed ideal-water range decides among the
baseline advisory, the `<`-condition sibling (or generic irrigation
message) and the `>`-condition sibling (or generic drainage message).
Stated for rule tables whose condition strings parse without raising
(`parse_if_condition` is called outside the per-row `try`, so a raising
condition string aborts the whole function — see C3). -/
theorem claim_C1_growth_disambiguation (crop : PyStr) (das : ℤ) (rain : ℚ) (rules : List GrowthRule)
    (h : ∀ r ∈ rules, parseIfCondition r.cond ≠ Except.error ()) :
    getGrowthAdvisory crop das rain rules = Except.ok (claimGrowthAdvisory crop das rain rules) := by
  unfold getGrowthAdvisory claimGrowthAdvisory
  cases hemp : (growthCandidates crop rules).isEmpty with
  | true => simp [hemp]
  | false =>
    cases hfind : (growthCandidates crop rules).find? (growthDasPred das) with
    | none => simp [hemp, hfind]
    | some matchRow =>
      have hsub : ∀ r ∈ growthSameStage matchRow.stage (growthCandidates crop rules),
          parseIfCondition r.cond ≠ Except.error () := by
        intro r hrm
        simp only [growthSameStage, List.mem_filter] at hrm
        have h1 := hrm.1
        simp only [growthCandidates, List.mem_filter] at h1
        exact h r h1.1
      have hloop := growthCondLoop_eq matchRow.stage das rain
        (growthSameStage matchRow.stage (growthCandidates crop rules)) hsub
      cases hfd : (growthSameStage matchRow.stage (growthCandidates crop rules)).find?
          (fun r => evaluatorRun (checksD r.cond) (PyVal.num rain)) with
      | some rr =>
        rw [hfd] at hloop
        simp [hemp, hloop, hfd]
      | none =>
        rw [hfd] at hloop
        simp [hemp, hloop, hfd]

/-- C1 witness: the Rice/Tillering scenario from the specification, with
`das = 20` and 25 mm of rainfall since sowing. -/
theorem claim_C1_witness :
    getGrowthAdvisory (pyS ("Rice")) 20 25 riceRules =
      Except.ok (claimGrowthAdvisory (pyS ("Rice")) 20 25 riceRules) :=
  claim_C1_growth_disambiguation (pyS ("Rice")) 20 25 riceRules (by decide)
